import Mathlib

/-!
Shallow embedding of the rag-tests repository: the HTTP entry point
(src/src/index.ts) and the RAG helper module (src/unnamed/part_000,
the `lib/helpers` module imported by index.ts), together with theorems
checking the specification's claims against the embedded code.

Conventions of the embedding:
- A LangChain `Document` is represented by its `pageContent` string.
- Chat messages are `Message.human` / `Message.ai` values.
- External model calls (rewriting, answer generation, retrieval) are
  passed in as explicit function parameters, since the code treats them
  as opaque capabilities.
- Stateful JS objects (the per-chain `messageHistories` map) become
  explicit association lists threaded through the functions.
-/

namespace Rag

/-- A chat message as stored by `ChatMessageHistory`: a user (human) or
assistant (ai) turn with its text content. -/
inductive Message where
  | human (content : String)
  | ai (content : String)
deriving DecidableEq

/-- Embedding task types of the `@google/generative-ai` package
(`TaskType` imported in src/unnamed/part_000 line 10). -/
inductive TaskType where
  | taskTypeUnspecified
  | retrievalQuery
  | retrievalDocument
  | semanticSimilarity
  | classification
  | clustering
deriving DecidableEq

/-- Configuration of a `GoogleGenerativeAIEmbeddings` object: the model
identifier and the task type fixed at construction. The task type is
applied to every embedding call made through the object. -/
structure GoogleGenerativeAIEmbeddings where
  model : String
  taskType : TaskType
deriving DecidableEq

/-- A `MemoryVectorStore` as constructed in src/unnamed/part_000 lines
55-56: it holds the single embeddings object given to its constructor
and the documents added to it. -/
structure MemoryVectorStore where
  embeddings : GoogleGenerativeAIEmbeddings
  documents : List String
deriving DecidableEq

/-- Embeds `initializeVectorStore` (src/unnamed/part_000 lines 48-58):
builds one `GoogleGenerativeAIEmbeddings` with model
"text-embedding-004" and task type RETRIEVAL_DOCUMENT, constructs a
`MemoryVectorStore` over it, and adds the documents. -/
def initializeVectorStore (documents : List String) : MemoryVectorStore :=
  { embeddings := { model := "text-embedding-004", taskType := TaskType.retrievalDocument }
    documents := documents }

/-- Modelled from the library contract of `MemoryVectorStore` (not under
src/): `addDocuments` embeds each added document through the store's
embeddings object, so the task type used at indexing time is the one
configured on that object. -/
def addDocumentsTaskType (vs : MemoryVectorStore) : TaskType :=
  vs.embeddings.taskType

/-- Modelled from the library contract of `MemoryVectorStore` (not under
src/): a similarity search embeds the incoming query through the same
embeddings object the store was constructed with, so the configured task
type also applies to query embedding. -/
def similaritySearchTaskType (vs : MemoryVectorStore) : TaskType :=
  vs.embeddings.taskType

/-- JS `Array.prototype.join(sep)`: concatenate the strings with `sep`
between consecutive elements; the empty array joins to the empty string. -/
def joinStrings (sep : String) : List String → String
  | [] => ""
  | [x] => x
  | x :: y :: rest => x ++ sep ++ joinStrings sep (y :: rest)

/-- Embeds `convertDocsToString` (src/unnamed/part_000 lines 60-66):
maps each document to its pageContent wrapped in a doc tag with
newlines, and joins the wrapped blocks with a newline. -/
def convertDocsToString (documents : List String) : String :=
  joinStrings "\n" (documents.map (fun d => "<doc>\n" ++ d ++ "\n</doc>"))

/-- The context block as the spec's §4.5 words it: each returned chunk's
text wrapped individually in a distinguishing tag, all wrapped chunks
joined with newlines, in the given ranked order; no chunks give an empty
block. Written from the spec's words, to be compared with
`convertDocsToString`. -/
def specContextBlock : List String → String
  | [] => ""
  | [c] => "<doc>\n" ++ c ++ "\n</doc>"
  | c :: c2 :: rest => "<doc>\n" ++ c ++ "\n</doc>" ++ "\n" ++ specContextBlock (c2 :: rest)

/-- Embeds `const port = process.env.API_PORT || 8087` (src/src/index.ts
line 6). The environment value is a JS string or undefined; `||` keeps
the left operand unless it is falsy, and the only falsy string is the
empty string. The result is either the environment string or the numeric
literal 8087, which is what `app.listen` receives. -/
def port (apiPort : Option String) : String ⊕ Nat :=
  match apiPort with
  | none => Sum.inr 8087
  | some s => if s = "" then Sum.inr 8087 else Sum.inl s

/-- Origin of a configuration value in the source: read from a named
environment variable, or a literal constant in the code. -/
inductive ConfigSource where
  | envVar (name : String)
  | hardcoded
deriving DecidableEq

/-- Whether a configuration value is drawn from the environment. -/
def ConfigSource.isEnv : ConfigSource → Bool
  | ConfigSource.envVar _ => true
  | ConfigSource.hardcoded => false

/-- A configuration value together with where the source draws it from. -/
structure ConfigValue (α : Type) where
  value : α
  source : ConfigSource
deriving DecidableEq

/-- Embeds the `docPath` argument of `loadAndSplitChunks` in
`createFinalRetrievalChain` (src/unnamed/part_000 lines 109-110): a
string literal in the source. -/
def docPathConfig : ConfigValue String :=
  { value := "C:\\Users\\Admin\\Documents\\Estágio\\rag\\src\\data\\docrag01.pdf"
    source := ConfigSource.hardcoded }

/-- Embeds the `chunkSize` argument (src/unnamed/part_000 line 107): the
literal 1536. -/
def chunkSizeConfig : ConfigValue Nat :=
  { value := 1536, source := ConfigSource.hardcoded }

/-- Embeds the `chunkOverlap` argument (src/unnamed/part_000 line 108):
the literal 128. -/
def chunkOverlapConfig : ConfigValue Nat :=
  { value := 128, source := ConfigSource.hardcoded }

/-- Embeds the chat model identifier (src/unnamed/part_000 lines 96 and
148): the literal "gemini-1.5-pro" at both construction sites. -/
def modelNameConfig : ConfigValue String :=
  { value := "gemini-1.5-pro", source := ConfigSource.hardcoded }

/-- Embeds the rewriter model temperature (src/unnamed/part_000 line
96): the literal 0.1. -/
def temperatureConfig : ConfigValue ℚ :=
  { value := 1 / 10, source := ConfigSource.hardcoded }

/-- Embeds the listening port configuration (src/src/index.ts line 6):
drawn from the environment variable API_PORT, with the constant 8087 as
fallback. -/
def portConfigSource : ConfigSource :=
  ConfigSource.envVar "API_PORT"

/-- Observable steps of the `/generate` express route, in execution
order. -/
inductive RouteAction where
  | respondBadRequest
  | setStreamHeaders
  | invokePipeline (question sessionId : Option String)
  | streamBody
deriving DecidableEq

/-- JS truthiness test `!x` for a request field that is a string when
present: true (falsy) when the field is absent or the empty string. -/
def falsyField : Option String → Bool
  | none => true
  | some s => s == ""

/-- The Node error raised when code touches the headers of a response
that was already sent (`ERR_HTTP_HEADERS_SENT`). -/
inductive NodeError where
  | errHttpHeadersSent
deriving DecidableEq

/-- The response state the route's statements depend on: whether the
response headers have been sent to the client. A fresh response starts
with `headersSent` false. -/
structure Res where
  headersSent : Bool
deriving DecidableEq

/-- Node/express semantics of `res.status(400).json(body)`: serialize
the body and send the response, after which the headers are sent. -/
def resStatusJson (_ : Res) : Res :=
  { headersSent := true }

/-- Node semantics of `res.setHeader`
(`OutgoingMessage.prototype.setHeader`): setting a header after the
response was sent throws `ERR_HTTP_HEADERS_SENT`; otherwise the header
is recorded and the response state is unchanged. -/
def resSetHeader (r : Res) : Except NodeError Res :=
  if r.headersSent then Except.error NodeError.errHttpHeadersSent
  else Except.ok r

/-- Embeds the `/generate` route handler (src/src/index.ts lines 10-28)
for a request body with optional `question` and `session_id` fields,
returning the observable steps the body performs and how the body ends
(normally, or with a thrown error that rejects the async function's
promise and stops execution). Statement by statement: lines 13-15
respond 400 when either field is falsy (with no early return); line 17
then calls `res.setHeader`, which throws `ERR_HTTP_HEADERS_SENT`
whenever the 400 response was already sent, so on that path the body
stops before line 20 ever awaits `handler(...)`; on the valid path the
streaming headers are set, the pipeline is invoked, and the body is
streamed. -/
def generateRoute (question session_id : Option String) :
    List RouteAction × Except NodeError Unit :=
  let res0 : Res := { headersSent := false }
  let step1 : List RouteAction × Res :=
    if falsyField question || falsyField session_id
    then ([RouteAction.respondBadRequest], resStatusJson res0)
    else ([], res0)
  match resSetHeader step1.2 with
  | Except.error e => (step1.1, Except.error e)
  | Except.ok _ =>
      (step1.1 ++
        [RouteAction.setStreamHeaders,
         RouteAction.invokePipeline question session_id,
         RouteAction.streamBody],
       Except.ok ())

/-- The record flowing through `conversationalRetrievalChain`
(src/unnamed/part_000 lines 140-149): the incoming `question`, the
session `history` injected by `RunnableWithMessageHistory`, and the
fields added by the two `RunnablePassthrough.assign` steps. -/
structure ChainState where
  question : String
  history : List Message
  standalone_question : Option String := none
  context : Option String := none
deriving DecidableEq

/-- Embeds the first step of `createDocumentRetrievalChain`
(src/unnamed/part_000 line 72): the lambda `(input) => input.question`
selecting the string handed to the retriever. -/
def documentRetrievalQuery (input : ChainState) : String :=
  input.question

/-- Embeds `createDocumentRetrievalChain` (src/unnamed/part_000 lines
68-76): pick the retrieval query from the input, run the retriever on
it, and serialize the returned documents with `convertDocsToString`.
The retriever is abstracted as a function from the query string to the
ranked document contents. -/
def createDocumentRetrievalChain (retriever : String → List String)
    (input : ChainState) : String :=
  convertDocsToString (retriever (documentRetrievalQuery input))

/-- Embeds the first step of `conversationalRetrievalChain`
(src/unnamed/part_000 lines 141-143):
`RunnablePassthrough.assign({standalone_question: rephraseQuestionChain})`
keeps the input record and adds the rewriter's output under
`standalone_question`. The rewriter chain is abstracted as a function
of the chain input (it reads `history` and `question` through its
prompt). -/
def assignStandaloneQuestion (rephrase : ChainState → String)
    (s : ChainState) : ChainState :=
  { s with standalone_question := some (rephrase s) }

/-- Embeds the second step of `conversationalRetrievalChain`
(src/unnamed/part_000 lines 144-146):
`RunnablePassthrough.assign({context: documentRetrievalChain})` keeps
the record and adds the serialized retrieval result under `context`. -/
def assignContext (retriever : String → List String)
    (s : ChainState) : ChainState :=
  { s with context := some (createDocumentRetrievalChain retriever s) }

/-- The string the retriever receives when `conversationalRetrievalChain`
processes a request: `documentRetrievalChain` runs on the record
produced by the `standalone_question` assignment step. -/
def retrievalInput (rephrase : ChainState → String)
    (input : ChainState) : String :=
  documentRetrievalQuery (assignStandaloneQuestion rephrase input)

/-- Embeds `conversationalRetrievalChain` (src/unnamed/part_000 lines
140-149): assign `standalone_question`, assign `context`, then feed the
record to the answer prompt and chat model, abstracted as a function
`llm` of the final record. -/
def conversationalRetrievalChain (rephrase : ChainState → String)
    (retriever : String → List String) (llm : ChainState → String)
    (input : ChainState) : String :=
  llm (assignContext retriever (assignStandaloneQuestion rephrase input))

/-- The `messageHistories` object (src/unnamed/part_000 lines 101-103
and 155): a mapping from sessionId to that session's message list,
embedded as an association list. -/
def SessionMap : Type := List (String × List Message)

instance : DecidableEq SessionMap := by
  unfold SessionMap
  infer_instance

/-- Embeds `getMessageHistoryForSession` (src/unnamed/part_000 lines
156-163): return the stored history when the sessionId is present,
otherwise create a new empty history, store it under the sessionId, and
return it. The result is the session's history plus the updated map. -/
def getMessageHistoryForSession (m : SessionMap) (sessionId : String) :
    List Message × SessionMap :=
  match List.lookup sessionId m with
  | some h => (h, m)
  | none => ([], (sessionId, []) :: m)

/-- Replace the history stored under a sessionId (the in-place mutation
of the `ChatMessageHistory` object held in the map). -/
def setSessionHistory (m : SessionMap) (sessionId : String)
    (h : List Message) : SessionMap :=
  match m with
  | [] => [(sessionId, h)]
  | (k, v) :: rest =>
      if k = sessionId then (k, h) :: rest
      else (k, v) :: setSessionHistory rest sessionId h

/-- Modelled from the spec (§4.6-§4.7) and the configuration at
src/unnamed/part_000 lines 165-170: `RunnableWithMessageHistory` (a
library class, not under src/) loads the history for the configured
sessionId via `getMessageHistory`, runs the inner runnable with that
history, and after the run appends the input message (key "question")
as a user turn and the produced answer as an assistant turn to the
session's history. -/
def invokeWithMessageHistory (m : SessionMap) (sessionId question : String)
    (chain : ChainState → String) : String × SessionMap :=
  let load := getMessageHistoryForSession m sessionId
  let answer := chain { question := question, history := load.1 }
  (answer,
   setSessionHistory load.2 sessionId
     (load.1 ++ [Message.human question, Message.ai answer]))

/-- Corpus-level effects performed while serving the application, in
execution order. -/
inductive PipelineAction where
  | loadDocument (docPath : String)
  | splitChunks (chunkSize chunkOverlap : Nat)
  | embedAndBuildVectorStore
  | invokeChain (question sessionId : String)
deriving DecidableEq

/-- Embeds the corpus-processing effects of `createFinalRetrievalChain`
(src/unnamed/part_000 lines 105-173): every invocation calls
`loadAndSplitChunks` (PDF load at the hardcoded path, then splitting
with chunkSize 1536 and chunkOverlap 128) and then
`initializeVectorStore` (embedding the chunks into a fresh
`MemoryVectorStore`). -/
def createFinalRetrievalChainTrace : List PipelineAction :=
  [PipelineAction.loadDocument docPathConfig.value,
   PipelineAction.splitChunks chunkSizeConfig.value chunkOverlapConfig.value,
   PipelineAction.embedAndBuildVectorStore]

/-- Embeds `handler` (src/unnamed/part_000 lines 180-189) at the level
of corpus effects: each call first awaits `createFinalRetrievalChain()`
- performing its full build trace - and then streams the chain once for
the request. -/
def handlerTrace (question sessionId : String) : List PipelineAction :=
  createFinalRetrievalChainTrace ++ [PipelineAction.invokeChain question sessionId]

/-- Embeds the module top level of src/src/index.ts (lines 5-32) at the
level of corpus effects: it builds the express app, registers the route,
and listens; no document loading, chunking, embedding or chain
construction happens at process start. -/
def startupTrace : List PipelineAction := []

/-- Embeds `handler` (src/unnamed/part_000 lines 180-189) at the level
of session state: each call awaits `createFinalRetrievalChain()`, whose
body allocates a fresh empty `messageHistories` map (line 155), and then
invokes the chain once with the request's question and sessionId.
Returns the answer and the session map of that request's chain. -/
def handler (rephrase : ChainState → String)
    (retriever : String → List String) (llm : ChainState → String)
    (question sessionId : String) : String × SessionMap :=
  invokeWithMessageHistory [] sessionId question
    (conversationalRetrievalChain rephrase retriever llm)

/-- The server loop of src/src/index.ts: requests are served by
`app.post` calling `handler` (line 20) once per request. No state
outside `handler` persists between requests - the helpers module keeps
no module-level session state - so the session state reachable after
serving a list of (question, sessionId) requests is the map of the last
`handler` call. -/
def serveRequests (rephrase : ChainState → String)
    (retriever : String → List String) (llm : ChainState → String)
    (requests : List (String × String)) : SessionMap :=
  requests.foldl (fun _ r => (handler rephrase retriever llm r.1 r.2).2) []

/-- The history the session store associates with a sessionId (empty
when the session is absent). -/
def historyOf (m : SessionMap) (sessionId : String) : List Message :=
  (List.lookup sessionId m).getD []

/-- Modelled from the spec (§4.2): the ranking order of the Vector
Index's similarity query over (original position, similarity score)
pairs - higher score first, ties broken by original chunk order with
the earlier chunk first. -/
def leRank (a b : Nat × ℚ) : Bool :=
  decide (b.2 < a.2 ∨ (a.2 = b.2 ∧ a.1 ≤ b.1))

/-- Modelled from the spec (§4.2): the similarity query of the Vector
Index used by the retriever built at src/unnamed/part_000 line 114
(`vectorStore.asRetriever()`, whose search lives in the langchain
library, not under src/). The index entries are abstracted by their
similarity score against the fixed query (cosine similarity of the
embedded query with each stored vector); the query ranks all entries by
descending score with ties broken by original order, and returns the
first k as (original position, score) pairs. -/
def similaritySearch (scores : List ℚ) (k : Nat) : List (Nat × ℚ) :=
  (scores.enum.mergeSort leRank).take k

/-- Modelled from the spec (§4.2): the default number of chunks
returned when `asRetriever()` is called with no argument
(src/unnamed/part_000 line 114); the spec's reference default is 4. -/
def asRetrieverDefaultK : Nat := 4

/-- Error raised by the chunker on invalid parameters (spec §4.1 and
§7: `ConfigurationError`). -/
inductive SplitError where
  | configurationError
deriving DecidableEq

/-- Fuel-indexed splitting loop over the text's characters: emit the
whole rest when it fits in one chunk, otherwise emit a window of
`chunkSize` characters and advance by `step` characters. -/
def splitGo (chunkSize step : Nat) : Nat → List Char → List (List Char)
  | 0, _ => []
  | fuel + 1, t =>
      if t.length ≤ chunkSize then [t]
      else t.take chunkSize :: splitGo chunkSize step fuel (t.drop step)

/-- Modelled from the spec (§4.1): the chunker
(`RecursiveCharacterTextSplitter`, a library class used by
`loadAndSplitChunks` at src/unnamed/part_000 lines 39-44, not under
src/). It requires `chunkOverlap < chunkSize` and fails with
`ConfigurationError` otherwise; on valid parameters it advances a
window of length `chunkSize` over the text stepping by
`chunkSize - chunkOverlap`, so that no chunk exceeds `chunkSize`
characters (the boundary-preferring break of the spec is abstracted by
its hard-cut fallback; the length bound is the same). -/
def split (rawText : String) (chunkSize chunkOverlap : Nat) :
    Except SplitError (List String) :=
  if chunkSize ≤ chunkOverlap then Except.error SplitError.configurationError
  else
    Except.ok
      ((splitGo chunkSize (chunkSize - chunkOverlap)
          (rawText.toList.length + 1) rawText.toList).map
        (fun c => String.mk c))

/-- Embeds `loadAndSplitChunks` (src/unnamed/part_000 lines 31-46):
load the document text at `docPath` (the PDF loader is abstracted as a
text-producing collaborator) and split it with the given parameters. -/
def loadAndSplitChunks (loadText : String → String)
    (chunkSize chunkOverlap : Nat) (docPath : String) :
    Except SplitError (List String) :=
  split (loadText docPath) chunkSize chunkOverlap

/-! ## Helper lemmas -/

theorem leRank_trans (a b c : Nat × ℚ) (hab : leRank a b = true)
    (hbc : leRank b c = true) : leRank a c = true := by
  simp only [leRank, decide_eq_true_iff] at *
  rcases hab with h1 | ⟨h1, h1i⟩ <;> rcases hbc with h2 | ⟨h2, h2i⟩
  · exact Or.inl (h2.trans h1)
  · exact Or.inl (h2 ▸ h1)
  · exact Or.inl (h1 ▸ h2)
  · exact Or.inr ⟨h1.trans h2, h1i.trans h2i⟩

theorem leRank_total (a b : Nat × ℚ) : (leRank a b || leRank b a) = true := by
  simp only [leRank, Bool.or_eq_true, decide_eq_true_iff]
  rcases lt_trichotomy a.2 b.2 with h | h | h
  · exact Or.inr (Or.inl h)
  · rcases le_total a.1 b.1 with hi | hi
    · exact Or.inl (Or.inr ⟨h, hi⟩)
    · exact Or.inr (Or.inr ⟨h.symm, hi⟩)
  · exact Or.inl (Or.inl h)

theorem splitGo_length_le (chunkSize step : Nat) :
    ∀ (fuel : Nat) (t : List Char), ∀ c ∈ splitGo chunkSize step fuel t,
      c.length ≤ chunkSize := by
  intro fuel
  induction fuel with
  | zero => intro t c hc; simp [splitGo] at hc
  | succ fuel ih =>
      intro t c hc
      by_cases h : t.length ≤ chunkSize
      · simp only [splitGo, if_pos h, List.mem_singleton] at hc
        exact hc ▸ h
      · simp only [splitGo, if_neg h, List.mem_cons] at hc
        rcases hc with hc | hc
        · subst hc
          simp [List.length_take]
        · exact ih (t.drop step) c hc

/-! ## Claim theorems -/

/-- C8: for a fixed index and every query, the similarity query returns
exactly min(k, |index|) chunks, sorted by descending similarity, the
returned entries are pairwise distinct index positions (no duplicate
chunks) that really carry the index's score at that position, ties are
broken by original chunk order with the earlier chunk first, and the
default k of the retriever is 4. -/
theorem c8_similarity_query_contract (scores : List ℚ) (k : Nat) :
    (similaritySearch scores k).length = min k scores.length ∧
    List.Pairwise (fun a b : Nat × ℚ => b.2 ≤ a.2) (similaritySearch scores k) ∧
    List.Pairwise (fun a b : Nat × ℚ => a.2 = b.2 → a.1 ≤ b.1)
      (similaritySearch scores k) ∧
    ((similaritySearch scores k).map Prod.fst).Nodup ∧
    (∀ p ∈ similaritySearch scores k, scores[p.1]? = some p.2) ∧
    asRetrieverDefaultK = 4 := by
  have hsorted :
      List.Pairwise (fun a b => leRank a b = true) (scores.enum.mergeSort leRank) :=
    @List.sorted_mergeSort _ leRank leRank_trans leRank_total scores.enum
  have htake :
      List.Pairwise (fun a b => leRank a b = true) (similaritySearch scores k) :=
    List.Pairwise.sublist (List.take_sublist k _) hsorted
  have hperm : (scores.enum.mergeSort leRank).Perm scores.enum :=
    List.mergeSort_perm scores.enum leRank
  refine ⟨?_, ?_, ?_, ?_, ?_, rfl⟩
  · simp [similaritySearch, List.length_take, List.length_mergeSort, List.enum_length]
  · refine htake.imp ?_
    intro a b hab
    simp only [leRank, decide_eq_true_iff] at hab
    rcases hab with h | ⟨h, _⟩
    · exact le_of_lt h
    · exact le_of_eq h.symm
  · refine htake.imp ?_
    intro a b hab heq
    simp only [leRank, decide_eq_true_iff] at hab
    rcases hab with h | ⟨_, hi⟩
    · exact absurd h (by simp [heq])
    · exact hi
  · have hmapperm : ((scores.enum.mergeSort leRank).map Prod.fst).Perm
        (scores.enum.map Prod.fst) := hperm.map Prod.fst
    have hnodup : ((scores.enum.mergeSort leRank).map Prod.fst).Nodup := by
      refine hmapperm.symm.nodup ?_
      rw [List.enum_map_fst]
      exact List.nodup_range scores.length
    exact ((List.take_sublist k _).map Prod.fst).nodup hnodup
  · intro p hp
    have hmem : p ∈ scores.enum.mergeSort leRank :=
      (List.take_sublist k _).mem hp
    have : p ∈ scores.enum := hperm.mem_iff.mp hmem
    exact List.mem_enum_iff_getElem?.mp this

/-- C9: the chunker requires chunkOverlap < chunkSize; invoking it with
chunkOverlap ≥ chunkSize fails with ConfigurationError, and on every
valid pair of parameters every produced chunk's length is at most
chunkSize. -/
theorem c9_chunker_validation_and_length_bound
    (rawText : String) (chunkSize chunkOverlap : Nat) :
    (chunkSize ≤ chunkOverlap →
      split rawText chunkSize chunkOverlap =
        Except.error SplitError.configurationError) ∧
    (∀ chunks, split rawText chunkSize chunkOverlap = Except.ok chunks →
      ∀ c ∈ chunks, c.length ≤ chunkSize) := by
  constructor
  · intro h
    simp [split, h]
  · intro chunks hok c hc
    unfold split at hok
    by_cases h : chunkSize ≤ chunkOverlap
    · simp [h] at hok
    · rw [if_neg h] at hok
      injection hok with hok
      subst hok
      rcases List.mem_map.mp hc with ⟨l, hl, hcl⟩
      subst hcl
      exact splitGo_length_le chunkSize (chunkSize - chunkOverlap) _ _ l hl

/-- C9 witness: with chunkSize 3 and chunkOverlap 5 the chunker fails
with ConfigurationError, and the chunks produced from "abcd" with
chunkSize 3, chunkOverlap 1 all have length at most 3. -/
theorem c9_witness :
    split "abcd" 3 5 = Except.error SplitError.configurationError ∧
    ∀ c ∈ ["abc", "cd"], c.length ≤ 3 :=
  ⟨(c9_chunker_validation_and_length_bound "abcd" 3 5).1 (by decide),
   fun c hc =>
     (c9_chunker_validation_and_length_bound "abcd" 3 1).2 ["abc", "cd"] rfl c hc⟩

/-- Example rewriter for concrete evaluation: always produces the fixed
standalone reformulation of the follow-up question. -/
def rephraseExample : ChainState → String :=
  fun _ => "Qual é a cor da grama?"

/-- Example retriever for concrete evaluation: always returns one
document. -/
def retrieverExample : String → List String :=
  fun _ => ["O céu é azul."]

/-- Example answer model for concrete evaluation: always answers the
same text. -/
def llmExample : ChainState → String :=
  fun _ => "Azul."

/-- Example chain input: a follow-up question with a prior exchange in
the history. -/
def exampleInput : ChainState :=
  { question := "E a grama?"
    history := [Message.human "Qual é a cor do céu?", Message.ai "Azul."] }

/-- C1 counterexample: on a concrete request the string handed to the
retriever is the original incoming question, which differs from the
rewriter's output, although the rewriter's output is present in the
chain state under standalone_question. -/
theorem c1_counterexample :
    retrievalInput rephraseExample exampleInput ≠ rephraseExample exampleInput ∧
    (assignStandaloneQuestion rephraseExample exampleInput).standalone_question =
      some (rephraseExample exampleInput) := by
  decide

/-- C1 (amended): for every request, the document-retrieval stage
queries the Vector Index with the original incoming question - the
lambda `(input) => input.question` - while the rewriter's output is
carried separately under standalone_question (and consumed only by the
answer prompt). -/
theorem c1_retrieval_input_is_original_question
    (rephrase : ChainState → String) (input : ChainState) :
    retrievalInput rephrase input = input.question ∧
    (assignStandaloneQuestion rephrase input).standalone_question =
      some (rephrase input) :=
  ⟨rfl, rfl⟩

/-- C2: for every request in which question or session_id is missing or
empty, the route sends the 400 response and the handler pipeline is
never invoked - the body's only observable step is the 400, it ends
with the ERR_HTTP_HEADERS_SENT throw raised by `res.setHeader` on the
already-sent response, and no invokePipeline step occurs; on valid
requests the body sets the streaming headers, invokes the pipeline, and
streams. -/
theorem c2_bad_request_rejected_before_pipeline
    (question session_id : Option String) :
    ((falsyField question || falsyField session_id) = true →
      (generateRoute question session_id).1 = [RouteAction.respondBadRequest] ∧
      (generateRoute question session_id).2 =
        Except.error NodeError.errHttpHeadersSent ∧
      ∀ q s, RouteAction.invokePipeline q s ∉ (generateRoute question session_id).1) ∧
    ((falsyField question || falsyField session_id) = false →
      (generateRoute question session_id).1 =
        [RouteAction.setStreamHeaders,
         RouteAction.invokePipeline question session_id,
         RouteAction.streamBody]) := by
  constructor
  · intro h
    refine ⟨?_, ?_, ?_⟩ <;>
      simp [generateRoute, h, resStatusJson, resSetHeader]
  · intro h
    simp [generateRoute, h, resSetHeader]

/-- C2 witness: with question present and session_id absent the trace
is exactly the 400 response and the pipeline step does not occur; with
both fields present the pipeline is invoked. -/
theorem c2_witness :
    (generateRoute (some "Qual é a cor do céu?") none).1 =
      [RouteAction.respondBadRequest] ∧
    RouteAction.invokePipeline (some "Qual é a cor do céu?") none ∉
      (generateRoute (some "Qual é a cor do céu?") none).1 ∧
    (generateRoute (some "Qual é a cor do céu?") (some "s1")).1 =
      [RouteAction.setStreamHeaders,
       RouteAction.invokePipeline (some "Qual é a cor do céu?") (some "s1"),
       RouteAction.streamBody] :=
  ⟨((c2_bad_request_rejected_before_pipeline (some "Qual é a cor do céu?") none).1
      (by decide)).1,
   ((c2_bad_request_rejected_before_pipeline (some "Qual é a cor do céu?") none).1
      (by decide)).2.2 (some "Qual é a cor do céu?") none,
   (c2_bad_request_rejected_before_pipeline (some "Qual é a cor do céu?")
      (some "s1")).2 (by decide)⟩

/-- C3 counterexample: two successful requests for the same sessionId;
the claim predicts a history of length 0 + 2·2 = 4, but the session
state reachable after both requests holds only the last request's two
messages, because each request rebuilt the chain with a fresh session
map. -/
theorem c3_counterexample :
    (historyOf
      (serveRequests rephraseExample retrieverExample llmExample
        [("Qual é a cor do céu?", "s1"), ("E a grama?", "s1")]) "s1").length = 2 ∧
    (historyOf
      (serveRequests rephraseExample retrieverExample llmExample
        [("Qual é a cor do céu?", "s1"), ("E a grama?", "s1")]) "s1").length ≠
      0 + 2 * 2 := by
  decide

/-- C3 (amended): sessions do not survive the request that created
them: after any sequence of requests ending with (q, sid), the history
stored for sid is exactly the last request's user message followed by
its assistant message, and that request's chain ran with an empty
history - each `handler` call allocates a fresh `messageHistories` map
inside `createFinalRetrievalChain`. -/
theorem c3_sessions_are_per_request
    (rephrase : ChainState → String) (retriever : String → List String)
    (llm : ChainState → String) (prior : List (String × String))
    (q sid : String) :
    historyOf (serveRequests rephrase retriever llm (prior ++ [(q, sid)])) sid =
      [Message.human q,
       Message.ai (conversationalRetrievalChain rephrase retriever llm
         { question := q, history := [] })] := by
  unfold serveRequests
  rw [List.foldl_append]
  simp [handler, invokeWithMessageHistory, getMessageHistoryForSession,
    setSessionHistory, historyOf, List.lookup]

/-- C4 counterexample: serving a concrete request triggers document
loading and embedding inside `handler`, and the startup trace builds no
index at all - the index is neither built at process start nor left
untouched by requests. -/
theorem c4_counterexample :
    PipelineAction.loadDocument docPathConfig.value ∈ handlerTrace "Qual é a cor do céu?" "s1" ∧
    PipelineAction.embedAndBuildVectorStore ∈ handlerTrace "Qual é a cor do céu?" "s1" ∧
    startupTrace = [] := by
  decide

/-- C4 (amended): the vector index is rebuilt on every request: each
`handler` invocation performs the full build - document load at the
hardcoded path, chunking with size 1536 and overlap 128, embedding into
a fresh vector store - before invoking the chain for that request, and
nothing is built at process start. -/
theorem c4_index_rebuilt_every_request (question sessionId : String) :
    handlerTrace question sessionId =
      [PipelineAction.loadDocument docPathConfig.value,
       PipelineAction.splitChunks 1536 128,
       PipelineAction.embedAndBuildVectorStore,
       PipelineAction.invokeChain question sessionId] ∧
    startupTrace = [] :=
  ⟨rfl, rfl⟩

/-- C5 counterexample: on a concrete store the task type used to embed
queries equals the task type used to embed documents, and it is not the
query-oriented RETRIEVAL_QUERY mode. -/
theorem c5_counterexample :
    similaritySearchTaskType (initializeVectorStore ["O céu é azul."]) =
      addDocumentsTaskType (initializeVectorStore ["O céu é azul."]) ∧
    similaritySearchTaskType (initializeVectorStore ["O céu é azul."]) ≠
      TaskType.retrievalQuery := by
  decide

/-- C5 (amended): one embeddings object configured with
RETRIEVAL_DOCUMENT serves the store, so both document indexing and
query embedding use the RETRIEVAL_DOCUMENT task type - no distinct
query-oriented mode exists. -/
theorem c5_same_task_type_for_query_and_documents (documents : List String) :
    similaritySearchTaskType (initializeVectorStore documents) =
      TaskType.retrievalDocument ∧
    addDocumentsTaskType (initializeVectorStore documents) =
      TaskType.retrievalDocument :=
  ⟨rfl, rfl⟩

/-- C6 counterexample: none of docPath, chunkSize, chunkOverlap,
modelName, temperature is drawn from an environment variable - every
one of them is a hardcoded literal in the source. -/
theorem c6_counterexample :
    docPathConfig.source.isEnv = false ∧
    chunkSizeConfig.source.isEnv = false ∧
    chunkOverlapConfig.source.isEnv = false ∧
    modelNameConfig.source.isEnv = false ∧
    temperatureConfig.source.isEnv = false := by
  decide

/-- C6 (amended): only the listening port is drawn from the
environment (API_PORT); docPath, chunkSize, chunkOverlap, modelName and
temperature are fixed literals in the source with the stated values. -/
theorem c6_only_port_is_environment_configured :
    docPathConfig.value = "C:\\Users\\Admin\\Documents\\Estágio\\rag\\src\\data\\docrag01.pdf" ∧
    docPathConfig.source = ConfigSource.hardcoded ∧
    chunkSizeConfig = { value := 1536, source := ConfigSource.hardcoded } ∧
    chunkOverlapConfig = { value := 128, source := ConfigSource.hardcoded } ∧
    modelNameConfig = { value := "gemini-1.5-pro", source := ConfigSource.hardcoded } ∧
    temperatureConfig = { value := 1 / 10, source := ConfigSource.hardcoded } ∧
    portConfigSource = ConfigSource.envVar "API_PORT" ∧
    portConfigSource.isEnv = true := by
  refine ⟨rfl, rfl, rfl, rfl, rfl, ?_, rfl, rfl⟩
  simp [temperatureConfig]

/-- C7: the context block built by `convertDocsToString` matches the
spec's serialization - each chunk wrapped individually in a doc tag,
wrapped chunks joined with newlines, ranked order preserved - and an
empty retrieval result yields the empty context block. -/
theorem c7_context_block_serialization :
    (∀ documents : List String,
      convertDocsToString documents = specContextBlock documents) ∧
    convertDocsToString [] = "" := by
  constructor
  · intro documents
    induction documents with
    | nil => rfl
    | cons d rest ih =>
        cases rest with
        | nil => rfl
        | cons e rest2 =>
            simp only [convertDocsToString, List.map_cons, joinStrings,
              specContextBlock] at *
            rw [← ih]
  · rfl

/-- C10 counterexample: with API_PORT set to the empty string the
server listens on 8087, not on the port given by API_PORT. -/
theorem c10_counterexample :
    port (some "") = Sum.inr 8087 ∧ port (some "") ≠ Sum.inl "" := by
  decide

/-- C10 (amended): if API_PORT is unset or set to the empty string the
server listens on 8087; for every other value it listens on the port
given by API_PORT. -/
theorem c10_port_resolution :
    port none = Sum.inr 8087 ∧
    port (some "") = Sum.inr 8087 ∧
    ∀ s : String, s ≠ "" → port (some s) = Sum.inl s := by
  refine ⟨rfl, rfl, ?_⟩
  intro s hs
  simp [port, hs]

/-- C10 witness: API_PORT set to "3000" resolves to that port. -/
theorem c10_witness : port (some "3000") = Sum.inl "3000" :=
  c10_port_resolution.2.2 "3000" (by decide)

end Rag
